import Mathlib

/-!
Shallow embedding of the expense/savings bookkeeping backend
(`src/routes/savings.js`, `src/routes/expenses.js`, the analytics router,
and the Mongoose `Savings` / `Expense` schemas): the filter builder for
listing queries, the pagination metadata, the monthly-trend aggregation
and densification loop, the derived-metric formulas (pie-chart
percentages, goal progress, on-track projection), the goal-progress
pre-save hook, and the owner-scoped single-fetch and bulk-delete store
operations.  Amounts and timestamps are modelled as exact rationals;
the JavaScript division-by-zero and NaN-comparison behaviour that the
on-track projection relies on is modelled explicitly by `JsNum`.
-/

namespace ExpenseApi

/-! ### JavaScript numeric primitives -/

/-- Result type of JavaScript arithmetic on IEEE numbers, restricted to
what the embedded code can produce from finite inputs: a finite value
(modelled exactly as a rational), the two infinities, or NaN. -/
inductive JsNum where
  | nan : JsNum
  | posInf : JsNum
  | negInf : JsNum
  | fin : ℚ → JsNum
deriving DecidableEq

/-- JavaScript division of two finite numbers: `a / 0` is `Infinity`,
`-Infinity` or `NaN` according to the sign of `a`; otherwise exact. -/
def jsDiv (a b : ℚ) : JsNum :=
  if b = 0 then
    if a > 0 then JsNum.posInf else if a < 0 then JsNum.negInf else JsNum.nan
  else JsNum.fin (a / b)

/-- JavaScript `>=` on numbers: any comparison with NaN is `false`;
`Infinity` is `>=` everything else, everything is `>=` `-Infinity`. -/
def jsGe : JsNum → JsNum → Bool
  | JsNum.nan, _ => false
  | _, JsNum.nan => false
  | JsNum.posInf, _ => true
  | _, JsNum.posInf => false
  | _, JsNum.negInf => true
  | JsNum.negInf, _ => false
  | JsNum.fin a, JsNum.fin b => a ≥ b

/-- JavaScript truthiness of an optional query-string parameter: absent
(`undefined`) and the empty string are falsy, every other string is
truthy (in particular the string `"0"` is truthy, unlike the number 0). -/
def strTruthy : Option String → Bool
  | none => false
  | some s => !(s == "")

/-- Numeric value of a decimal digit character. -/
def digitVal (c : Char) : Nat := c.toNat - 48

/-- Value of a list of decimal digit characters read in base 10. -/
def digitsVal (cs : List Char) : Nat := cs.foldl (fun a c => a * 10 + digitVal c) 0

/-- Models JavaScript `parseFloat` on the plain decimal strings the
validated routes can pass it: an optional sign, an integer part and an
optional fractional part; a string with no digits parses to NaN.
(Exponent forms and the `Infinity` literal never reach `parseFloat`
here because the boundary validator only admits plain floats.) -/
def jsParseFloat (s : String) : JsNum :=
  let cs := s.toList
  let sign : ℚ := if cs.head? == some '-' then -1 else 1
  let cs := if cs.head? == some '-' || cs.head? == some '+' then cs.tail else cs
  let intPart := cs.takeWhile Char.isDigit
  let rest := cs.dropWhile Char.isDigit
  let fracPart := if rest.head? == some '.' then rest.tail.takeWhile Char.isDigit else []
  if intPart.isEmpty && fracPart.isEmpty then JsNum.nan
  else JsNum.fin (sign * ((digitsVal intPart : ℚ) + (digitsVal fracPart : ℚ) / (10 ^ fracPart.length)))

/-! ### Filter Builder (listing queries)

`GET /api/savings` and `GET /api/expenses` build a Mongo filter object
from `req.query`.  Express delivers every query parameter as a string,
so the `if (minAmount || maxAmount)` presence tests are string
truthiness tests; `new Date(...)` / `parseFloat(...)` convert the raw
strings when a clause is added.  The ISO date strings are kept verbatim
in the date clause (the `Date` conversion is injective on the validated
ISO inputs and its value is never inspected here). -/

/-- Criteria accepted by `GET /api/savings` (src/routes/savings.js,
destructured from `req.query` with the pagination/sort fields handled
separately).  `currency` may arrive in `req.query` but is never
destructured by the handler, so it can contribute no clause. -/
structure SavingsListCriteria where
  startDate : Option String
  endDate : Option String
  type : Option String
  category : Option String
  minAmount : Option String
  maxAmount : Option String
  currency : Option String
deriving DecidableEq

/-- Criteria accepted by `GET /api/expenses` (same shape plus
`paymentMethod`, minus `type`; `currency` again never destructured). -/
structure ExpenseListCriteria where
  startDate : Option String
  endDate : Option String
  category : Option String
  minAmount : Option String
  maxAmount : Option String
  paymentMethod : Option String
  currency : Option String
deriving DecidableEq

/-- The `{ $gte?, $lte? }` sub-object built for the `date` field; the
bounds hold the raw ISO strings handed to `new Date`. -/
structure DateRangeClause where
  gte : Option String
  lte : Option String
deriving DecidableEq

/-- The `{ $gte?, $lte? }` sub-object built for the `amount` field; the
bounds hold the `parseFloat` results. -/
structure AmountRangeClause where
  gte : Option JsNum
  lte : Option JsNum
deriving DecidableEq

/-- The Mongo filter object built by `GET /api/savings`: mandatory owner
equality plus one optional clause per supplied criterion. -/
structure SavingsListQuery where
  user : Nat
  date : Option DateRangeClause
  type : Option String
  category : Option String
  amount : Option AmountRangeClause
deriving DecidableEq

/-- The Mongo filter object built by `GET /api/expenses`. -/
structure ExpenseListQuery where
  user : Nat
  date : Option DateRangeClause
  category : Option String
  amount : Option AmountRangeClause
  paymentMethod : Option String
deriving DecidableEq

/-- Filter build of `GET /api/savings` (src/routes/savings.js lines
156-180): start from `{ user }`; add a `date` object if either date
bound is truthy, with only the truthy bounds inside; likewise for
`amount`; add exact-match clauses for truthy `type` / `category`. -/
def buildSavingsListQuery (uid : Nat) (c : SavingsListCriteria) : SavingsListQuery :=
  { user := uid
    date :=
      if strTruthy c.startDate || strTruthy c.endDate then
        some { gte := if strTruthy c.startDate then c.startDate else none
               lte := if strTruthy c.endDate then c.endDate else none }
      else none
    type := if strTruthy c.type then c.type else none
    category := if strTruthy c.category then c.category else none
    amount :=
      if strTruthy c.minAmount || strTruthy c.maxAmount then
        some { gte := if strTruthy c.minAmount then c.minAmount.map jsParseFloat else none
               lte := if strTruthy c.maxAmount then c.maxAmount.map jsParseFloat else none }
      else none }

/-- Filter build of `GET /api/expenses` (src/routes/savings.js second
document, lines 667-691 of the concatenated file): identical shape with
`paymentMethod` instead of `type`. -/
def buildExpenseListQuery (uid : Nat) (c : ExpenseListCriteria) : ExpenseListQuery :=
  { user := uid
    date :=
      if strTruthy c.startDate || strTruthy c.endDate then
        some { gte := if strTruthy c.startDate then c.startDate else none
               lte := if strTruthy c.endDate then c.endDate else none }
      else none
    category := if strTruthy c.category then c.category else none
    amount :=
      if strTruthy c.minAmount || strTruthy c.maxAmount then
        some { gte := if strTruthy c.minAmount then c.minAmount.map jsParseFloat else none
               lte := if strTruthy c.maxAmount then c.maxAmount.map jsParseFloat else none }
      else none
    paymentMethod := if strTruthy c.paymentMethod then c.paymentMethod else none }

/-! ### Pagination Engine -/

/-- Skip offset of the listing queries:
`(parseInt(page) - 1) * parseInt(limit)`. -/
def listSkip (page limit : Nat) : Nat := (page - 1) * limit

/-- Pagination metadata object returned by the listing routes. -/
structure PaginationMeta where
  currentPage : Nat
  totalPages : Nat
  totalItems : Nat
  itemsPerPage : Nat
  hasNextPage : Bool
  hasPrevPage : Bool
deriving DecidableEq

/-- Pagination block of the listing responses (src/routes/savings.js
lines 198-210): `totalPages = Math.ceil(total / limit)`,
`hasNextPage = page < totalPages`, `hasPrevPage = page > 1`. -/
def paginationOf (page limit total : Nat) : PaginationMeta :=
  let totalPages := Nat.ceil ((total : ℚ) / (limit : ℚ))
  { currentPage := page
    totalPages := totalPages
    totalItems := total
    itemsPerPage := limit
    hasNextPage := decide (page < totalPages)
    hasPrevPage := decide (page > 1) }

/-! ### Aggregation Engine: monthly trends

`GET /api/analytics/trends/monthly` issues a `$group` by `$month` over
each collection and then densifies the grouped rows into exactly twelve
entries.  A record already matched by the base query is represented by
its `$month` value (1-12 for real dates) and its amount. -/

/-- A record as seen by the monthly `$group` stage: its date's month
number and its amount. -/
structure DatedAmount where
  month : Nat
  amount : ℚ
deriving DecidableEq

/-- A row of the `$group` output: `{ _id: { month }, total, count }`. -/
structure MonthGroupRow where
  month : Nat
  total : ℚ
  count : Nat
deriving DecidableEq

/-- Sum of the amounts of a list of records (the `$sum` accumulator). -/
def sumAmounts (rs : List DatedAmount) : ℚ := rs.foldl (fun a r => a + r.amount) 0

/-- The `$group`-by-month / `$sort`-by-month pipeline: one row per month
value present among the records, holding the sum and count of the
matching records, sorted by month ascending. -/
def groupByMonth (rs : List DatedAmount) : List MonthGroupRow :=
  (((rs.map (fun r => r.month)).dedup).mergeSort (fun a b => a ≤ b)).map
    (fun m =>
      { month := m
        total := sumAmounts (rs.filter (fun r => r.month == m))
        count := (rs.filter (fun r => r.month == m)).length })

/-- An entry of the `monthlyData` array (the `monthName` display string
is presentational and omitted). -/
structure MonthTrendEntry where
  month : Nat
  expenses : ℚ
  savings : ℚ
  netWorth : ℚ
deriving DecidableEq

/-- Densification loop of `GET /api/analytics/trends/monthly`: for each
month 1..12, look up the grouped expense and savings rows with `find`
and emit zeros when absent. -/
def monthlyTrendData (monthlyExpenses monthlySavings : List MonthGroupRow) :
    List MonthTrendEntry :=
  (List.range 12).map (fun i =>
    let month := i + 1
    let expenseData := monthlyExpenses.find? (fun item => item.month == month)
    let savingsData := monthlySavings.find? (fun item => item.month == month)
    { month := month
      expenses := match expenseData with | some e => e.total | none => 0
      savings := match savingsData with | some s => s.total | none => 0
      netWorth := (match savingsData with | some s => s.total | none => 0)
        - (match expenseData with | some e => e.total | none => 0) })

/-! ### Derived Metrics Calculator -/

/-- Rounding to two decimal places, half toward positive infinity: the
numeric value of JavaScript `x.toFixed(2)` for the (exactly modelled)
finite values at hand, and also the specification's `round2`. -/
def round2 (x : ℚ) : ℚ := ((round (x * 100) : ℤ) : ℚ) / 100

/-- Percentage-of-total of one pie-chart slice
(`totalExpenses > 0 ? ((item.total / totalExpenses) * 100).toFixed(2) : 0`
in the analytics router; the `toFixed(2)` string is read back as its
numeric value). -/
def pieChartPercentage (itemTotal grandTotal : ℚ) : ℚ :=
  if grandTotal > 0 then round2 (itemTotal / grandTotal * 100) else 0

/-- The `goalProgressPercentage` virtual of the Savings schema
(src/unnamed/part_002 lines 290-293): 0 when `goal.targetAmount` is
absent (falsy) or zero, otherwise `min(amount / targetAmount * 100, 100)`. -/
def goalProgressPercentage (amount : ℚ) (targetAmount : Option ℚ) : ℚ :=
  match targetAmount with
  | none => 0
  | some t => if t = 0 then 0 else min (amount / t * 100) 100

/-- On-track projection of `GET /api/savings/goals`
(src/routes/savings.js lines 397-399): `true` when the goal has no
target date, otherwise the JavaScript comparison
`amount / targetAmount >= (now - periodStart) / (targetDate - periodStart)`,
whose divisions and comparison follow IEEE semantics. -/
def isOnTrack (amount targetAmount periodStart : ℚ) (targetDate : Option ℚ) (now : ℚ) : Bool :=
  match targetDate with
  | some td => jsGe (jsDiv amount targetAmount) (jsDiv (now - periodStart) (td - periodStart))
  | none => true

/-! ### SavingsRecord goal sub-object and the pre-save hook -/

/-- The `goal` sub-object of the Savings schema (fields consumed by the
goal-progress hook; `targetDate` is a timestamp). -/
structure GoalSub where
  targetAmount : Option ℚ
  targetDate : Option ℚ
  isCompleted : Bool
  progress : ℚ
deriving DecidableEq

/-- A Savings document as seen by the goal-progress hook: the hook reads
`amount` and `goal` and writes only inside `goal`. -/
structure SavingsDoc where
  amount : ℚ
  goal : GoalSub
deriving DecidableEq

/-- The `updateGoalProgress` method (src/unnamed/part_002 lines
355-360): when `goal.targetAmount` is truthy and `> 0`, set
`goal.progress = Math.min(amount / targetAmount * 100, 100)` and then
`goal.isCompleted = goal.progress >= 100`; otherwise leave the document
untouched. -/
def updateGoalProgress (d : SavingsDoc) : SavingsDoc :=
  match d.goal.targetAmount with
  | some t =>
      if t ≠ 0 ∧ t > 0 then
        let progress := min (d.amount / t * 100) 100
        { d with goal := { d.goal with progress := progress
                                       isCompleted := decide (progress ≥ 100) } }
      else d
  | none => d

/-- The persistence path of a Savings document: the `pre('save')`
middleware (src/unnamed/part_002 lines 363-366) runs
`updateGoalProgress` on the document and the result is what gets
persisted. -/
def saveSavings (d : SavingsDoc) : SavingsDoc := updateGoalProgress d

/-! ### Record Store operations: single fetch and bulk delete -/

/-- A stored Savings record as seen by the owner-scoped store
operations: its `_id`, its owning user and its amount (identifiers are
modelled as naturals). -/
structure StoredSavings where
  id : Nat
  user : Nat
  amount : ℚ
deriving DecidableEq

/-- Outcome of `GET /api/savings/:id`: either the 404 body
`Savings entry not found` (one shared value, whatever the cause) or the
record. -/
inductive GetByIdResult where
  | notFound : GetByIdResult
  | found : StoredSavings → GetByIdResult
deriving DecidableEq

/-- `Savings.findOne({ _id: id, user: uid })`. -/
def findOneSavings (store : List StoredSavings) (id uid : Nat) : Option StoredSavings :=
  store.find? (fun r => decide (r.id = id ∧ r.user = uid))

/-- Handler of `GET /api/savings/:id` (src/routes/savings.js lines
221-240): a single owner-scoped `findOne`; a `null` result becomes the
404 outcome. -/
def getSavingsById (store : List StoredSavings) (id uid : Nat) : GetByIdResult :=
  match findOneSavings store id uid with
  | none => GetByIdResult.notFound
  | some r => GetByIdResult.found r

/-- Handler of `DELETE /api/savings/bulk` (src/routes/savings.js lines
473-487): `deleteMany({ _id: { $in: savingsIds }, user: uid })`; returns
the remaining store and the reported `deletedCount`. -/
def bulkDeleteSavings (store : List StoredSavings) (ids : List Nat) (uid : Nat) :
    List StoredSavings × Nat :=
  (store.filter (fun r => !decide (r.id ∈ ids ∧ r.user = uid)),
   (store.filter (fun r => decide (r.id ∈ ids ∧ r.user = uid))).length)

/-! ### Concrete fixtures used by the witnesses -/

/-- Fixture criteria: only `minAmount = "0"` supplied. -/
def minZeroCriteria : SavingsListCriteria :=
  { startDate := none, endDate := none, type := none, category := none
    minAmount := some "0", maxAmount := none, currency := none }

/-- Fixture criteria for the expense listing: one date bound and a
payment method supplied. -/
def expenseFixtureCriteria : ExpenseListCriteria :=
  { startDate := some "2024-01-01", endDate := none, category := none
    minAmount := none, maxAmount := none, paymentMethod := some "Cash", currency := none }

/-- Fixture expense records for the monthly-trend witness: a single
record in March. -/
def trendExpenseRecords : List DatedAmount := [{ month := 3, amount := 100 }]

/-- Fixture savings records for the monthly-trend witness: none. -/
def trendSavingsRecords : List DatedAmount := []

/-- Fixture store: records 1 and 3 owned by user 10, record 2 owned by
user 99. -/
def fixtureStore : List StoredSavings :=
  [{ id := 1, user := 10, amount := 100 },
   { id := 2, user := 99, amount := 50 },
   { id := 3, user := 10, amount := 75 }]

/-- Fixture Savings document: amount 50 toward a 200 target, with stale
goal fields before the save. -/
def goalDoc50 : SavingsDoc :=
  { amount := 50
    goal := { targetAmount := some 200, targetDate := none, isCompleted := true, progress := 7 } }

/-- Fixture Savings document: amount 200 toward a 200 target. -/
def goalDoc200 : SavingsDoc :=
  { amount := 200
    goal := { targetAmount := some 200, targetDate := none, isCompleted := false, progress := 7 } }

/-- Fixture Savings document with a cleared target and a previously
computed progress pair. -/
def clearedTargetDoc : SavingsDoc :=
  { amount := 500
    goal := { targetAmount := none, targetDate := none, isCompleted := true, progress := 62 } }

/-! ### Helper lemmas -/

/-- Truthiness of a validated optional query parameter coincides with
presence: the routes reject a supplied-but-empty value before the
builder runs, so the only falsy case left is absence. -/
theorem strTruthy_eq_isSome (o : Option String) (h : o ≠ some "") : strTruthy o = o.isSome := by
  cases o with
  | none => rfl
  | some s =>
      have hs : ¬s = "" := fun hs => h (by rw [hs])
      simp [strTruthy, hs]

/-- Presence of a conditionally added clause is exactly its condition. -/
theorem isSome_if_bool {α : Type} (b : Bool) (x : α) :
    (if b then some x else none).isSome = b := by
  cases b <;> simp

/-- A month with no matching record yields no grouped row, so the
densification lookup misses. -/
theorem find?_groupByMonth_eq_none (rs : List DatedAmount) (m : Nat)
    (h : ∀ r ∈ rs, r.month ≠ m) :
    (groupByMonth rs).find? (fun item => item.month == m) = none := by
  rw [List.find?_eq_none]
  intro x hx
  simp only [groupByMonth, List.mem_map, List.mem_mergeSort, List.mem_dedup] at hx
  obtain ⟨k, hk, rfl⟩ := hx
  obtain ⟨r, hr, rfl⟩ := hk
  simpa using h r hr

/-- Evaluation rule for `round2` when the scaled argument is an integer. -/
theorem round2_eq_of_int (x : ℚ) (n : ℤ) (h : x * 100 = (n : ℚ)) :
    round2 x = (n : ℚ) / 100 := by
  unfold round2
  rw [h, round_intCast]

/-! ### Claim theorems -/

/-- C1: for every set of (validated) filter criteria, the predicate
built for the listing queries always contains the owner-equality
clause; it contains a date clause iff at least one date bound was
supplied and an amount clause iff at least one amount bound was
supplied (a supplied `minAmount` of exactly `"0"` is a truthy query
string, so it does contribute a clause); when only one of min/max (or
only one date bound) is given, only that one-sided bound appears
inside the clause. Stated for both the savings and the expense listing
builders. -/
theorem filter_builder_clause_presence (uid : Nat)
    (c : SavingsListCriteria) (e : ExpenseListCriteria)
    (h1 : c.startDate ≠ some "") (h2 : c.endDate ≠ some "")
    (h3 : c.minAmount ≠ some "") (h4 : c.maxAmount ≠ some "")
    (h5 : e.startDate ≠ some "") (h6 : e.endDate ≠ some "")
    (h7 : e.minAmount ≠ some "") (h8 : e.maxAmount ≠ some "") :
    (buildSavingsListQuery uid c).user = uid
    ∧ ((buildSavingsListQuery uid c).date.isSome ↔ (c.startDate.isSome ∨ c.endDate.isSome))
    ∧ ((buildSavingsListQuery uid c).amount.isSome ↔ (c.minAmount.isSome ∨ c.maxAmount.isSome))
    ∧ (∀ s, c.minAmount = some s → c.maxAmount = none →
        (buildSavingsListQuery uid c).amount = some { gte := some (jsParseFloat s), lte := none })
    ∧ (∀ s, c.maxAmount = some s → c.minAmount = none →
        (buildSavingsListQuery uid c).amount = some { gte := none, lte := some (jsParseFloat s) })
    ∧ (∀ s, c.startDate = some s → c.endDate = none →
        (buildSavingsListQuery uid c).date = some { gte := some s, lte := none })
    ∧ (∀ s, c.endDate = some s → c.startDate = none →
        (buildSavingsListQuery uid c).date = some { gte := none, lte := some s })
    ∧ (buildExpenseListQuery uid e).user = uid
    ∧ ((buildExpenseListQuery uid e).date.isSome ↔ (e.startDate.isSome ∨ e.endDate.isSome))
    ∧ ((buildExpenseListQuery uid e).amount.isSome ↔ (e.minAmount.isSome ∨ e.maxAmount.isSome)) := by
  refine ⟨rfl, ?_, ?_, ?_, ?_, ?_, ?_, rfl, ?_, ?_⟩
  · simp only [buildSavingsListQuery]
    rw [isSome_if_bool, strTruthy_eq_isSome _ h1, strTruthy_eq_isSome _ h2, Bool.or_eq_true]
  · simp only [buildSavingsListQuery]
    rw [isSome_if_bool, strTruthy_eq_isSome _ h3, strTruthy_eq_isSome _ h4, Bool.or_eq_true]
  · intro s hs hn
    have hs' : ¬s = "" := fun hh => h3 (by rw [hs, hh])
    simp [buildSavingsListQuery, hs, hn, strTruthy, hs']
  · intro s hs hn
    have hs' : ¬s = "" := fun hh => h4 (by rw [hs, hh])
    simp [buildSavingsListQuery, hs, hn, strTruthy, hs']
  · intro s hs hn
    have hs' : ¬s = "" := fun hh => h1 (by rw [hs, hh])
    simp [buildSavingsListQuery, hs, hn, strTruthy, hs']
  · intro s hs hn
    have hs' : ¬s = "" := fun hh => h2 (by rw [hs, hh])
    simp [buildSavingsListQuery, hs, hn, strTruthy, hs']
  · simp only [buildExpenseListQuery]
    rw [isSome_if_bool, strTruthy_eq_isSome _ h5, strTruthy_eq_isSome _ h6, Bool.or_eq_true]
  · simp only [buildExpenseListQuery]
    rw [isSome_if_bool, strTruthy_eq_isSome _ h7, strTruthy_eq_isSome _ h8, Bool.or_eq_true]

/-- Witness for C1: a supplied `minAmount` of exactly `"0"` with no
`maxAmount` yields an amount clause with only the lower bound. -/
theorem filter_builder_clause_presence_witness :
    (buildSavingsListQuery 7 minZeroCriteria).amount
      = some { gte := some (jsParseFloat "0"), lte := none } :=
  (filter_builder_clause_presence 7 minZeroCriteria expenseFixtureCriteria
    (by decide) (by decide) (by decide) (by decide)
    (by decide) (by decide) (by decide) (by decide)).2.2.2.1 "0" rfl rfl

/-- C2: the pie-chart percentage-of-total equals
`round2(item.total / grandTotal * 100)` when the grand total is
positive and equals 0 when the grand total is 0, never an error or
NaN; in particular `percentage-of-total(x, 0) = 0` for any `x` and
`percentage-of-total(50, 200) = 25.00`. -/
theorem percentage_of_total_spec (t g : ℚ) :
    (g > 0 → pieChartPercentage t g = round2 (t / g * 100))
    ∧ (g = 0 → pieChartPercentage t g = 0)
    ∧ pieChartPercentage 50 200 = 25
    ∧ (∀ x : ℚ, pieChartPercentage x 0 = 0) := by
  refine ⟨fun hg => by simp [pieChartPercentage, hg],
    fun hg => by simp [pieChartPercentage, hg], ?_,
    fun x => by simp [pieChartPercentage]⟩
  have h1 : pieChartPercentage 50 200 = round2 ((50:ℚ) / 200 * 100) := by
    norm_num [pieChartPercentage]
  rw [h1, round2_eq_of_int _ 2500 (by norm_num)]
  norm_num

/-- Witness for C2 at a positive grand total. -/
theorem percentage_of_total_spec_witness :
    pieChartPercentage 50 200 = round2 ((50:ℚ) / 200 * 100) :=
  (percentage_of_total_spec 50 200).1 (by norm_num)

/-- C3: for every underlying set of expense and savings records, the
monthly-trends report has exactly 12 entries, their month numbers are
strictly increasing 1..12, and a month with no matching record reports
expenses 0 and savings 0 — densification done by the engine's loop,
not by the grouped store output. -/
theorem monthly_trends_densification (exps savs : List DatedAmount) :
    (monthlyTrendData (groupByMonth exps) (groupByMonth savs)).length = 12
    ∧ (monthlyTrendData (groupByMonth exps) (groupByMonth savs)).map (fun d => d.month)
        = [1, 2, 3, 4, 5, 6, 7, 8, 9, 10, 11, 12]
    ∧ (∀ i, ∀ h : i < (monthlyTrendData (groupByMonth exps) (groupByMonth savs)).length,
        ((∀ r ∈ exps, r.month ≠ i + 1) →
          ((monthlyTrendData (groupByMonth exps) (groupByMonth savs)).get ⟨i, h⟩).expenses = 0)
        ∧ ((∀ r ∈ savs, r.month ≠ i + 1) →
          ((monthlyTrendData (groupByMonth exps) (groupByMonth savs)).get ⟨i, h⟩).savings = 0)) := by
  refine ⟨by simp [monthlyTrendData], rfl, ?_⟩
  intro i h
  constructor
  · intro hno
    have key := find?_groupByMonth_eq_none exps (i + 1) hno
    simp [monthlyTrendData, List.get_eq_getElem, List.getElem_map, List.getElem_range, key]
  · intro hno
    have key := find?_groupByMonth_eq_none savs (i + 1) hno
    simp [monthlyTrendData, List.get_eq_getElem, List.getElem_map, List.getElem_range, key]

/-- Witness for C3: with one March expense record and no savings
records, the January entry reports expenses 0. -/
theorem monthly_trends_densification_witness :
    ((monthlyTrendData (groupByMonth trendExpenseRecords) (groupByMonth trendSavingsRecords)).get
      ⟨0, by simp [monthlyTrendData]⟩).expenses = 0 :=
  ((monthly_trends_densification trendExpenseRecords trendSavingsRecords).2.2 0
    (by simp [monthlyTrendData])).1 (by decide)

/-- C4: the `goalProgressPercentage` virtual equals
`min(amount / targetAmount * 100, 100)` when the target is positive
and 0 when the target is absent or 0; the value is clamped at 100, so
`goalProgressPercentage(150, 100) = 100`,
`goalProgressPercentage(50, 100) = 50`,
`goalProgressPercentage(0, 0) = 0`. -/
theorem goal_progress_percentage_spec (a t : ℚ) (o : Option ℚ) :
    (o = some t → t > 0 → goalProgressPercentage a o = min (a / t * 100) 100)
    ∧ ((o = none ∨ o = some 0) → goalProgressPercentage a o = 0)
    ∧ goalProgressPercentage 150 (some 100) = 100
    ∧ goalProgressPercentage 50 (some 100) = 50
    ∧ goalProgressPercentage 0 (some 0) = 0 := by
  refine ⟨?_, ?_, by norm_num [goalProgressPercentage],
    by norm_num [goalProgressPercentage], by simp [goalProgressPercentage]⟩
  · rintro rfl ht
    simp [goalProgressPercentage, ht.ne']
  · rintro (rfl | rfl) <;> simp [goalProgressPercentage]

/-- Witness for C4 at a positive target. -/
theorem goal_progress_percentage_spec_witness :
    goalProgressPercentage 150 (some 100) = min ((150:ℚ) / 100 * 100) 100 :=
  (goal_progress_percentage_spec 150 100 (some 100)).1 rfl (by norm_num)

/-- C5: whenever a SavingsRecord with a positive `goal.targetAmount`
is saved, the pre-save hook leaves the persisted record with
`goal.progress = min(amount / targetAmount * 100, 100)` and
`goal.isCompleted = (progress >= 100)`; saving amount 50 against
target 200 yields progress 25 and isCompleted false, amount 200 yields
progress 100 and isCompleted true. -/
theorem goal_progress_presave_invariant (d : SavingsDoc) (t : ℚ)
    (ht : d.goal.targetAmount = some t) (hpos : t > 0) :
    (saveSavings d).goal.progress = min (d.amount / t * 100) 100
    ∧ ((saveSavings d).goal.isCompleted = true ↔ (saveSavings d).goal.progress ≥ 100)
    ∧ (saveSavings goalDoc50).goal.progress = 25
    ∧ (saveSavings goalDoc50).goal.isCompleted = false
    ∧ (saveSavings goalDoc200).goal.progress = 100
    ∧ (saveSavings goalDoc200).goal.isCompleted = true := by
  have hcond : t ≠ 0 ∧ t > 0 := ⟨hpos.ne', hpos⟩
  refine ⟨?_, ?_, by norm_num [saveSavings, updateGoalProgress, goalDoc50],
    by norm_num [saveSavings, updateGoalProgress, goalDoc50, decide_eq_false_iff_not],
    by norm_num [saveSavings, updateGoalProgress, goalDoc200],
    by norm_num [saveSavings, updateGoalProgress, goalDoc200, decide_eq_true_iff]⟩
  · simp [saveSavings, updateGoalProgress, ht, hcond]
  · simp [saveSavings, updateGoalProgress, ht, hcond, decide_eq_true_iff]

/-- Witness for C5: saving the amount-50 / target-200 document. -/
theorem goal_progress_presave_invariant_witness :
    (saveSavings goalDoc50).goal.progress = min (goalDoc50.amount / 200 * 100) 100 :=
  (goal_progress_presave_invariant goalDoc50 200 rfl (by norm_num)).1

/-- C6: the on-track projection returns `true` when the goal has no
target date and otherwise compares the achieved fraction against the
elapsed fraction under JavaScript semantics; for every input,
including a zero-length window (`targetDate = periodStart`), the
result is a defined boolean, never an error or NaN (NaN only ever
appears inside the comparison, where it yields `false`). -/
theorem on_track_defined_spec (amount targetAmount periodStart now : ℚ)
    (targetDate : Option ℚ) :
    (targetDate = none → isOnTrack amount targetAmount periodStart targetDate now = true)
    ∧ (∀ td, targetDate = some td →
        isOnTrack amount targetAmount periodStart targetDate now
          = jsGe (jsDiv amount targetAmount) (jsDiv (now - periodStart) (td - periodStart)))
    ∧ (isOnTrack amount targetAmount periodStart targetDate now = true
        ∨ isOnTrack amount targetAmount periodStart targetDate now = false)
    ∧ isOnTrack 50 100 0 (some 0) 5 = false
    ∧ isOnTrack 50 100 0 (some 0) 0 = false := by
  refine ⟨fun h => by simp [isOnTrack, h], fun td h => by simp [isOnTrack, h], ?_,
    by norm_num [isOnTrack, jsDiv, jsGe], by norm_num [isOnTrack, jsDiv, jsGe]⟩
  cases hb : isOnTrack amount targetAmount periodStart targetDate now
  · exact Or.inr rfl
  · exact Or.inl rfl

/-- Witness for C6 at a degenerate zero-length window. -/
theorem on_track_defined_spec_witness :
    isOnTrack 50 100 0 (some 0) 5
      = jsGe (jsDiv 50 100) (jsDiv ((5:ℚ) - 0) ((0:ℚ) - 0)) :=
  (on_track_defined_spec 50 100 0 5 (some 0)).2.1 0 rfl

/-- C7: for every page >= 1, limit in [1,100] and total, the
pagination metadata satisfies `skip = (page-1)*limit`,
`totalPages = ceil(total/limit)`, `hasNextPage = (page < totalPages)`,
`hasPrevPage = (page > 1)`; total 95 with limit 20 gives totalPages 5,
page 5 gives hasNextPage false and hasPrevPage true, page 1 gives
hasPrevPage false. -/
theorem pagination_meta_spec (page limit total : Nat)
    (_hp : 1 ≤ page) (_hl1 : 1 ≤ limit) (_hl2 : limit ≤ 100) :
    listSkip page limit = (page - 1) * limit
    ∧ (paginationOf page limit total).totalPages = Nat.ceil ((total : ℚ) / (limit : ℚ))
    ∧ ((paginationOf page limit total).hasNextPage = true
        ↔ page < (paginationOf page limit total).totalPages)
    ∧ ((paginationOf page limit total).hasPrevPage = true ↔ 1 < page)
    ∧ (paginationOf 5 20 95).totalPages = 5
    ∧ (paginationOf 5 20 95).hasNextPage = false
    ∧ (paginationOf 5 20 95).hasPrevPage = true
    ∧ (paginationOf 1 20 95).hasPrevPage = false := by
  have hceil : Nat.ceil (((95:Nat) : ℚ) / ((20:Nat) : ℚ)) = 5 := by
    norm_num [Nat.ceil_eq_iff]
  refine ⟨rfl, rfl, by simp [paginationOf, decide_eq_true_iff],
    by simp [paginationOf, decide_eq_true_iff], ?_, ?_,
    by simp only [paginationOf]; decide, by simp only [paginationOf]; decide⟩
  · simpa only [paginationOf] using hceil
  · simp only [paginationOf]
    rw [hceil]
    decide

/-- Witness for C7 at total 95, limit 20, page 5. -/
theorem pagination_meta_spec_witness :
    (paginationOf 5 20 95).totalPages = 5 :=
  (pagination_meta_spec 5 20 95 (by decide) (by decide) (by decide)).2.2.2.2.1

/-- C8: bulk delete removes exactly the listed records owned by the
requesting user (a listed record of another owner survives) and
reports the count actually deleted; deleting [1,2,3] when record 2
belongs to user 99 removes records 1 and 3 only and reports
deletedCount 2. -/
theorem bulk_delete_owner_scoped (store : List StoredSavings) (ids : List Nat) (uid : Nat) :
    (∀ r ∈ store, (r ∈ (bulkDeleteSavings store ids uid).1 ↔ ¬(r.id ∈ ids ∧ r.user = uid)))
    ∧ (bulkDeleteSavings store ids uid).2
        = store.countP (fun r => decide (r.id ∈ ids ∧ r.user = uid))
    ∧ bulkDeleteSavings fixtureStore [1, 2, 3] 10
        = ([{ id := 2, user := 99, amount := 50 }], 2) := by
  refine ⟨?_, by simp [bulkDeleteSavings, List.countP_eq_length_filter],
    by simp [bulkDeleteSavings, fixtureStore]⟩
  intro r hr
  simp [bulkDeleteSavings, List.mem_filter, hr]
  tauto

/-- Witness for C8: the other-owner record survives the bulk delete. -/
theorem bulk_delete_owner_scoped_witness :
    StoredSavings.mk 2 99 50 ∈ (bulkDeleteSavings fixtureStore [1, 2, 3] 10).1
      ↔ ¬((StoredSavings.mk 2 99 50).id ∈ [1, 2, 3] ∧ (StoredSavings.mk 2 99 50).user = 10) :=
  (bulk_delete_owner_scoped fixtureStore [1, 2, 3] 10).1 (StoredSavings.mk 2 99 50) (by decide)

/-- C9: fetching a single record by identifier produces the identical
not-found outcome whether no such record exists or the record belongs
to a different user, so existence of another user's record is not
leaked. -/
theorem get_by_id_not_found_uniform (store : List StoredSavings) (id uid : Nat)
    (h : ∀ r ∈ store, r.id = id → r.user ≠ uid) :
    getSavingsById store id uid = GetByIdResult.notFound
    ∧ getSavingsById [] 1 10
        = getSavingsById [{ id := 1, user := 99, amount := 5 }] 1 10 := by
  constructor
  · have hf : store.find? (fun r => decide (r.id = id ∧ r.user = uid)) = none := by
      rw [List.find?_eq_none]
      intro x hx
      simp only [decide_eq_true_eq]
      rintro ⟨hid, husr⟩
      exact h x hx hid husr
    simp only [getSavingsById, findOneSavings, hf]
  · simp [getSavingsById, findOneSavings]

/-- Witness for C9: a store whose only record with the requested id
belongs to another user yields the not-found outcome. -/
theorem get_by_id_not_found_uniform_witness :
    getSavingsById [StoredSavings.mk 1 99 5] 1 10 = GetByIdResult.notFound :=
  (get_by_id_not_found_uniform [StoredSavings.mk 1 99 5] 1 10 (by decide)).1

/-- C10: when `goal.targetAmount` is absent or 0, the pre-save
recomputation leaves `goal.progress` and `goal.isCompleted` exactly
unchanged, so a previously computed pair persists after the target is
cleared or zeroed. -/
theorem goal_progress_frame (d : SavingsDoc)
    (h : d.goal.targetAmount = none ∨ d.goal.targetAmount = some 0) :
    (saveSavings d).goal.progress = d.goal.progress
    ∧ (saveSavings d).goal.isCompleted = d.goal.isCompleted := by
  rcases h with h | h <;> simp [saveSavings, updateGoalProgress, h]

/-- Witness for C10: a document with a cleared target keeps its stale
progress value across the save. -/
theorem goal_progress_frame_witness :
    (saveSavings clearedTargetDoc).goal.progress = clearedTargetDoc.goal.progress :=
  (goal_progress_frame clearedTargetDoc (Or.inl rfl)).1

end ExpenseApi
